import Mathlib

/-!
Verification development for the x402 weather API (src/weather.py, src/main.py).

The Python code is shallowly embedded: JSON values become an inductive `Json`
with Python subscript / `.get` / truthiness semantics, an outbound HTTP call
becomes an `Upstream` outcome supplied as an argument, and each coroutine in
`weather.py` becomes a total function from that outcome to an `Outcome`:
a returned value, a raised `HTTPException (status, detail)`, or a raw Python
exception escaping uncaught.
-/

namespace WeatherApi

/-- JSON values as Python sees them after `resp.json()`.  Numbers are modelled
as rationals: every JSON literal is an exact decimal, no arithmetic is ever
performed on them (they are passed through), and Python numeric equality on
such values (`2.0 == 2`) coincides with equality in `ℚ`.  The model identifies
the int `4` with the float `4.0`; no property below depends on that corner. -/
inductive Json where
  | null
  | bool (b : Bool)
  | num (q : ℚ)
  | str (s : String)
  | arr (elems : List Json)
  | obj (fields : List (String × Json))

/-- Raw Python exception classes that the code in `weather.py` can surface.
`keyError`/`keyErrorInt` carry the missing key of `d[k]`. -/
inductive PyErr where
  | keyError (key : String)
  | keyErrorInt (key : Nat)
  | indexError
  | typeError
  | attributeError
  | jsonDecodeError
deriving DecidableEq

/-- The classes caught by `except (KeyError, TypeError, IndexError)` in
`get_current` / `get_forecast` (src/weather.py lines 139 and 188). -/
def PyErr.isCaughtByFormatHandler : PyErr → Bool
  | .keyError _ => true
  | .keyErrorInt _ => true
  | .indexError => true
  | .typeError => true
  | .attributeError => false
  | .jsonDecodeError => false

/-- Python `d[k]` with a string key: dict lookup or `KeyError`; every other
type (list, str, scalars, None) raises `TypeError`. -/
def Json.subscript : Json → String → Except PyErr Json
  | .obj fields, k =>
    match fields.lookup k with
    | some v => .ok v
    | none => .error (.keyError k)
  | _, _ => .error .typeError

/-- Python `d[i]` with a non-negative integer: list indexing or `IndexError`;
a dict with string keys raises `KeyError(i)`; a string yields the character;
scalars raise `TypeError`. -/
def Json.indexNat : Json → Nat → Except PyErr Json
  | .arr xs, i =>
    match xs.get? i with
    | some v => .ok v
    | none => .error .indexError
  | .obj _, i => .error (.keyErrorInt i)
  | .str s, i =>
    match s.toList.get? i with
    | some c => .ok (.str (String.mk [c]))
    | none => .error .indexError
  | _, _ => .error .typeError

/-- Python `d.get(k)` (no default): dict lookup returning `None` on a miss;
any non-dict raises `AttributeError` (no `.get` attribute). -/
def Json.getOrNone : Json → String → Except PyErr Json
  | .obj fields, k => .ok ((fields.lookup k).getD .null)
  | _, _ => .error .attributeError

/-- Python `d.get(k, default)`. -/
def Json.getOrDefault : Json → String → Json → Except PyErr Json
  | .obj fields, k, d => .ok ((fields.lookup k).getD d)
  | _, _, _ => .error .attributeError

/-- Python truthiness of a JSON value (`if not results:`). -/
def Json.isFalsy : Json → Bool
  | .null => true
  | .bool b => !b
  | .num q => q == 0
  | .str s => s.isEmpty
  | .arr xs => xs.isEmpty
  | .obj fs => fs.isEmpty

/-- Python `len(x)`: defined for list, str and dict; `TypeError` otherwise. -/
def Json.pyLen : Json → Except PyErr Nat
  | .arr xs => .ok xs.length
  | .str s => .ok s.length
  | .obj fs => .ok fs.length
  | _ => .error .typeError

/-- A JSON value is hashable (usable as a dict key) unless it is a list or a
dict. -/
def Json.isHashable : Json → Bool
  | .arr _ => false
  | .obj _ => false
  | _ => true

/-- WMO Weather Interpretation Codes table (src/weather.py lines 32-61). -/
def WMO_CODES : List (Int × String) :=
  [(0, "Clear sky"),
   (1, "Mainly clear"),
   (2, "Partly cloudy"),
   (3, "Overcast"),
   (45, "Fog"),
   (48, "Depositing rime fog"),
   (51, "Light drizzle"),
   (53, "Moderate drizzle"),
   (55, "Dense drizzle"),
   (56, "Light freezing drizzle"),
   (57, "Dense freezing drizzle"),
   (61, "Slight rain"),
   (63, "Moderate rain"),
   (65, "Heavy rain"),
   (66, "Light freezing rain"),
   (67, "Heavy freezing rain"),
   (71, "Slight snow fall"),
   (73, "Moderate snow fall"),
   (75, "Heavy snow fall"),
   (77, "Snow grains"),
   (80, "Slight rain showers"),
   (81, "Moderate rain showers"),
   (82, "Violent rain showers"),
   (85, "Slight snow showers"),
   (86, "Heavy snow showers"),
   (95, "Thunderstorm"),
   (96, "Thunderstorm with slight hail"),
   (99, "Thunderstorm with heavy hail")]

/-- `describe_weather_code(code: int)` (src/weather.py lines 64-66):
`WMO_CODES.get(code, f"Unknown ({code})")`. -/
def describe_weather_code (code : Int) : String :=
  match WMO_CODES.lookup code with
  | some s => s
  | none => "Unknown (" ++ toString code ++ ")"

/-- Rendering of a rational inside an f-string: exact for integral values
(the only case any property below touches); the non-integral fallback stands
in for Python float rendering. -/
def qRender (q : ℚ) : String :=
  if q.den == 1 then toString q.num else toString q

/-- Rendering of a hashable JSON value inside `f"Unknown ({code})"`. -/
def Json.pyRender : Json → String
  | .null => "None"
  | .bool b => if b then "True" else "False"
  | .num q => qRender q
  | .str s => s
  | .arr _ => "[list]"
  | .obj _ => "[dict]"

/-- `WMO_CODES.get(code, ...)` applied to a hashable runtime value, with
Python dict-key equality: `True == 1`, `False == 0`, and an integral float
equals the int key. -/
def describeHashable : Json → String
  | .bool b => describe_weather_code (if b then 1 else 0)
  | .num q =>
    if q.den == 1 then describe_weather_code q.num
    else "Unknown (" ++ qRender q ++ ")"
  | j => "Unknown (" ++ j.pyRender ++ ")"

/-- `describe_weather_code` applied to the raw JSON value fished out of the
response: a list or dict code is unhashable and raises `TypeError` inside the
`WMO_CODES.get` call. -/
def describeJson (j : Json) : Except PyErr String :=
  if j.isHashable then .ok (describeHashable j) else .error .typeError

/-- Outcome of one outbound `_client.get(...)` call as the caller observes it:
a `httpx.TimeoutException`, another `httpx.HTTPError` (connection-level), or a
response with a status code and a body (`none` when the body is not valid
JSON, so that `resp.json()` raises `json.JSONDecodeError`). -/
inductive Upstream where
  | timeout
  | transportError
  | response (status : Nat) (body : Option Json)

/-- How a coroutine in `weather.py` terminates: a returned value, a raised
`HTTPException(status, detail)`, or a raw Python exception escaping uncaught
(which FastAPI would surface as a 500, not part of the error taxonomy). -/
inductive Outcome (α : Type) where
  | ok (a : α)
  | httpError (status : Nat) (detail : String)
  | uncaught (e : PyErr)

/-- The dict returned by `geocode` (src/weather.py lines 94-99); field values
are raw JSON values, as Python performs no type validation on them. -/
structure GeoResult where
  name : Json
  country : Json
  latitude : Json
  longitude : Json

/-- `geocode(city)` (src/weather.py lines 69-99).  The `try` wraps only the
`_client.get` call; `resp.json()` and the field accesses on `hit` run outside
any handler, so their faults escape uncaught. -/
def geocode (city : String) : Upstream → Outcome GeoResult
  | .timeout => .httpError 504 "Weather data source timeout"
  | .transportError => .httpError 502 "Weather data source unavailable"
  | .response status body =>
    if status ≠ 200 then .httpError 502 "Weather data source unavailable"
    else
      match body with
      | none => .uncaught .jsonDecodeError
      | some data =>
        match data.getOrNone "results" with
        | .error e => .uncaught e
        | .ok results =>
          if results.isFalsy then .httpError 404 ("City not found: " ++ city)
          else
            match results.indexNat 0 with
            | .error e => .uncaught e
            | .ok hit =>
              match hit.subscript "name" with
              | .error e => .uncaught e
              | .ok nm =>
                match hit.getOrDefault "country" (.str "") with
                | .error e => .uncaught e
                | .ok country =>
                  match hit.subscript "latitude" with
                  | .error e => .uncaught e
                  | .ok la =>
                    match hit.subscript "longitude" with
                    | .error e => .uncaught e
                    | .ok lo => .ok ⟨nm, country, la, lo⟩

/-- Rendering of the exception inside `f"Unexpected weather data format: {exc}"`;
the missing key is what matters, Python quoting of it is abbreviated. -/
def pyErrRender : PyErr → String
  | .keyError k => k
  | .keyErrorInt k => toString k
  | .indexError => "list index out of range"
  | .typeError => "type error"
  | .attributeError => "attribute error"
  | .jsonDecodeError => "json decode error"

/-- Detail string of the 502 raised by the format handlers
(src/weather.py lines 140 and 189). -/
def formatErrorDetail (e : PyErr) : String :=
  "Unexpected weather data format: " ++ pyErrRender e

/-- The dict returned by `get_current` (src/weather.py lines 128-138); values
are raw JSON except `condition`, which `describe_weather_code` makes a string. -/
structure CurrentWeather where
  temperature_c : Json
  feels_like_c : Json
  humidity_pct : Json
  wind_speed_kmh : Json
  wind_direction_deg : Json
  precipitation_mm : Json
  condition : String
  weather_code : Json
  observation_time : Json

/-- The body of the `try` in `get_current` (src/weather.py lines 125-138), in
Python evaluation order: `data["current"]`, `cur["weather_code"]`, then the
dict literal field by field. -/
def extractCurrent (data : Json) : Except PyErr CurrentWeather := do
  let cur ← data.subscript "current"
  let code ← cur.subscript "weather_code"
  let temp ← cur.subscript "temperature_2m"
  let feels ← cur.subscript "apparent_temperature"
  let hum ← cur.subscript "relative_humidity_2m"
  let wspd ← cur.subscript "wind_speed_10m"
  let wdir ← cur.subscript "wind_direction_10m"
  let prec ← cur.subscript "precipitation"
  let cond ← describeJson code
  let time ← cur.subscript "time"
  pure ⟨temp, feels, hum, wspd, wdir, prec, cond, code, time⟩

/-- `get_current(lat, lon)` (src/weather.py lines 102-140).  The coordinates
only parameterise the outbound request, which the `Upstream` argument
abstracts, so they do not appear on the right-hand side.  `resp.json()` runs
outside the `try`, so a non-JSON 200 body escapes uncaught. -/
def get_current (_lat _lon : ℚ) : Upstream → Outcome CurrentWeather
  | .timeout => .httpError 504 "Weather data source timeout"
  | .transportError => .httpError 502 "Weather data source unavailable"
  | .response status body =>
    if status ≠ 200 then .httpError 502 "Weather data source unavailable"
    else
      match body with
      | none => .uncaught .jsonDecodeError
      | some data =>
        match extractCurrent data with
        | .ok w => .ok w
        | .error e =>
          if e.isCaughtByFormatHandler then .httpError 502 (formatErrorDetail e)
          else .uncaught e

/-- One entry of the list returned by `get_forecast`
(src/weather.py lines 176-185). -/
structure ForecastDay where
  date : Json
  condition : String
  weather_code : Json
  temp_max_c : Json
  temp_min_c : Json
  precipitation_mm : Json
  precipitation_probability_pct : Json
  wind_max_kmh : Json

/-- One iteration of the loop in `get_forecast` (src/weather.py lines 174-186),
in Python evaluation order: `daily["weather_code"][i]` first, then the dict
literal field by field. -/
def buildForecastDay (daily : Json) (i : Nat) : Except PyErr ForecastDay := do
  let codes ← daily.subscript "weather_code"
  let code ← codes.indexNat i
  let times ← daily.subscript "time"
  let date ← times.indexNat i
  let cond ← describeJson code
  let tmax ← (← daily.subscript "temperature_2m_max").indexNat i
  let tmin ← (← daily.subscript "temperature_2m_min").indexNat i
  let psum ← (← daily.subscript "precipitation_sum").indexNat i
  let pprob ← (← daily.subscript "precipitation_probability_max").indexNat i
  let wmax ← (← daily.subscript "wind_speed_10m_max").indexNat i
  pure ⟨date, cond, code, tmax, tmin, psum, pprob, wmax⟩

/-- `for i in range(...)` starting at index `i` with `fuel` iterations left,
appending one forecast entry per iteration and aborting on the first raised
exception, as the Python loop does. -/
def forecastLoop (daily : Json) (i fuel : Nat) : Except PyErr (List ForecastDay) :=
  match fuel with
  | 0 => .ok []
  | fuel + 1 => do
    let d ← buildForecastDay daily i
    let rest ← forecastLoop daily (i + 1) fuel
    pure (d :: rest)

/-- The body of the `try` in `get_forecast` (src/weather.py lines 170-187):
`daily = data["daily"]`, then a loop over `range(len(daily["time"]))`. -/
def extractForecast (data : Json) : Except PyErr (List ForecastDay) := do
  let daily ← data.subscript "daily"
  let times ← daily.subscript "time"
  let n ← times.pyLen
  forecastLoop daily 0 n

/-- `get_forecast(lat, lon, days)` (src/weather.py lines 143-189).  `lat`,
`lon` and `days` only parameterise the outbound request (`forecast_days`
query parameter), which the `Upstream` argument abstracts; the handling of
the response never consults them. -/
def get_forecast (_lat _lon : ℚ) (_days : Int) : Upstream → Outcome (List ForecastDay)
  | .timeout => .httpError 504 "Weather data source timeout"
  | .transportError => .httpError 502 "Weather data source unavailable"
  | .response status body =>
    if status ≠ 200 then .httpError 502 "Weather data source unavailable"
    else
      match body with
      | none => .uncaught .jsonDecodeError
      | some data =>
        match extractForecast data with
        | .ok l => .ok l
        | .error e =>
          if e.isCaughtByFormatHandler then .httpError 502 (formatErrorDetail e)
          else .uncaught e

/-! ## main.py: pricing registry, payment gate, location resolution -/

/-- `PaymentOption(scheme="exact", pay_to=EVM_ADDRESS, price=PRICE,
network=NETWORK)` (src/main.py line 114). -/
structure PaymentOption where
  scheme : String
  pay_to : String
  price : String
  network : String
deriving DecidableEq

/-- src/main.py line 113. -/
def PRICE : String := "$0.001"

/-- The single payment requirement configured for both priced routes
(src/main.py line 114), parameterised by the environment-supplied payee
address and network identifier. -/
def PAYMENT (evmAddress networkId : String) : PaymentOption :=
  ⟨"exact", evmAddress, PRICE, networkId⟩

/-- `RouteConfig` as used in src/main.py: the accepted payment options, the
response content type and the human-readable description.  The nested bazaar
discovery examples (inert static data, inspected by no property) are carried
as a JSON blob. -/
structure RouteConfig where
  accepts : List PaymentOption
  mime_type : String
  description : String
  extensions : Json

/-- Bazaar discovery metadata of `GET /weather/current`
(src/main.py lines 123-151). -/
def currentBazaar : Json :=
  .obj [("bazaar", .obj [("info", .obj
    [("input", .obj [("type", .str "http"),
       ("queryParams", .obj [("city", .str "Tokyo")])]),
     ("output", .obj [("type", .str "json"),
       ("example", .obj
         [("city", .str "Tokyo"),
          ("country", .str "Japan"),
          ("latitude", .num 35.6895),
          ("longitude", .num 139.6917),
          ("temperature_c", .num 12.5),
          ("feels_like_c", .num 10.2),
          ("humidity_pct", .num 65),
          ("wind_speed_kmh", .num 15.3),
          ("wind_direction_deg", .num 270),
          ("precipitation_mm", .num 0),
          ("condition", .str "Partly cloudy"),
          ("weather_code", .num 2),
          ("observation_time", .str "2026-02-20T15:00"),
          ("attribution", .str "Weather data by Open-Meteo.com")])])])])]

/-- Bazaar discovery metadata of `GET /weather/forecast`
(src/main.py lines 159-190). -/
def forecastBazaar : Json :=
  .obj [("bazaar", .obj [("info", .obj
    [("input", .obj [("type", .str "http"),
       ("queryParams", .obj [("city", .str "Tokyo"), ("days", .str "3")])]),
     ("output", .obj [("type", .str "json"),
       ("example", .obj
         [("city", .str "Tokyo"),
          ("country", .str "Japan"),
          ("latitude", .num 35.6895),
          ("longitude", .num 139.6917),
          ("days", .arr [.obj
            [("date", .str "2026-02-21"),
             ("condition", .str "Slight rain"),
             ("weather_code", .num 61),
             ("temp_max_c", .num 15.2),
             ("temp_min_c", .num 8.1),
             ("precipitation_mm", .num 12.5),
             ("precipitation_probability_pct", .num 85),
             ("wind_max_kmh", .num 22)]]),
          ("attribution", .str "Weather data by Open-Meteo.com")])])])])]

/-- The route pricing registry (src/main.py lines 116-192): exactly the two
priced routes, each accepting the single `PAYMENT` option; `/health` has no
entry. -/
def routes (evmAddress networkId : String) : List (String × RouteConfig) :=
  [("GET /weather/current",
    ⟨[PAYMENT evmAddress networkId], "application/json",
     "Get current weather conditions for any city worldwide. " ++
     "Returns temperature, humidity, wind, precipitation, and condition description. " ++
     "Specify city name (geocoded automatically) or latitude/longitude coordinates.",
     currentBazaar⟩),
   ("GET /weather/forecast",
    ⟨[PAYMENT evmAddress networkId], "application/json",
     "Get daily weather forecast (1-7 days) for any city worldwide. " ++
     "Returns max/min temperature, precipitation probability, and wind speed per day. " ++
     "Specify city name or latitude/longitude coordinates.",
     forecastBazaar⟩)]

/-- An inbound HTTP request as the payment gate sees it: method, path, and
whether it carries a payment proof the facilitator accepts (proof contents
are opaque to this system, so only validity is modelled). -/
structure Request where
  method : String
  path : String
  hasValidPaymentProof : Bool

/-- A response body: either the 402 challenge enumerating payment
requirements, or an ordinary JSON payload. -/
inductive Body where
  | challenge (requirements : List PaymentOption)
  | payload (j : Json)

/-- An HTTP response. -/
structure Response where
  status : Nat
  body : Body

/-- `health_check` (src/main.py lines 211-213). -/
def health_check (networkId : String) : Response :=
  ⟨200, .payload (.obj [("status", .str "ok"), ("service", .str "weather-api"),
    ("network", .str networkId)])⟩

/-- Modelled from the spec: the per-request decision of
`PaymentMiddlewareASGI` (the x402 package is not under src/; only its
configuration in src/main.py lines 194 and 116-192 is).  Spec section 4.1:
`evaluate(request) → Free | Challenge(requirements) | Proceed`, where a route
absent from the pricing registry is free, and a priced route yields
`Challenge` exactly when no payment requirement is satisfied (a missing proof
and a failed verification are both `Challenge`). -/
inductive Decision where
  | Free
  | Challenge (requirements : List PaymentOption)
  | Proceed

/-- Modelled from the spec: registry lookup is by exact `"METHOD path"` match
(spec section 4.2), and verification is delegated — here collapsed into
`hasValidPaymentProof`. -/
def evaluateGate (registry : List (String × RouteConfig)) (req : Request) : Decision :=
  match registry.lookup (req.method ++ " " ++ req.path) with
  | none => .Free
  | some rc => if req.hasValidPaymentProof then .Proceed else .Challenge rc.accepts

/-- Modelled from the spec: the gate wraps every inbound request; on
`Challenge` it responds 402 with a body enumerating every configured
PaymentRequirement of the route and the handler never runs; on `Free` or
`Proceed` it forwards to the handler (spec sections 4.1 and 2).  The Boolean
of the result records whether the handler was invoked. -/
def gateRequest (registry : List (String × RouteConfig))
    (handler : Request → Response) (req : Request) : Response × Bool :=
  match evaluateGate registry req with
  | .Challenge reqs => (⟨402, .challenge reqs⟩, false)
  | .Free => (handler req, true)
  | .Proceed => (handler req, true)

/-- `_resolve_location(city, lat, lon)` (src/main.py lines 198-207),
parameterised by the geocoding function so that the absence of a geocoding
network call is expressible as independence from it.  Python `city or f"..."`
treats the empty string as missing. -/
def resolveLocation (geocoder : String → Outcome GeoResult)
    (city : Option String) (lat lon : Option ℚ) : Outcome (Json × Json × Json × Json) :=
  match lat, lon with
  | some la, some lo =>
    let fallback := qRender la ++ "," ++ qRender lo
    let nm := match city with
      | some c => if c.isEmpty then fallback else c
      | none => fallback
    .ok (.str nm, .str "", .num la, .num lo)
  | _, _ =>
    match city with
    | some c =>
      if c.isEmpty then
        .httpError 400 "Provide \x27city\x27 or both \x27lat\x27 and \x27lon\x27 parameters"
      else
        match geocoder c with
        | .ok g => .ok (g.name, g.country, g.latitude, g.longitude)
        | .httpError s d => .httpError s d
        | .uncaught e => .uncaught e
    | none =>
      .httpError 400 "Provide \x27city\x27 or both \x27lat\x27 and \x27lon\x27 parameters"

/-- A well-formed upstream `daily` object assembled from seven parallel
arrays, used to state properties of `get_forecast`. -/
def mkDaily (ts cs maxs mins ps pps ws : List Json) : Json :=
  .obj [("time", .arr ts), ("weather_code", .arr cs),
        ("temperature_2m_max", .arr maxs), ("temperature_2m_min", .arr mins),
        ("precipitation_sum", .arr ps), ("precipitation_probability_max", .arr pps),
        ("wind_speed_10m_max", .arr ws)]

/-- The forecast entry built from position `j` of the parallel arrays, as
specification for the loop of `get_forecast`. -/
def dayAt (ts cs maxs mins ps pps ws : List Json) (j : Nat) : ForecastDay :=
  ⟨ts.getD j .null, describeHashable (cs.getD j .null), cs.getD j .null,
   maxs.getD j .null, mins.getD j .null, ps.getD j .null, pps.getD j .null,
   ws.getD j .null⟩

/-! ## Helper lemmas -/

theorem lookup_eq_none_of_not_mem {α β : Type} [BEq α] [LawfulBEq α]
    (l : List (α × β)) (k : α) (h : k ∉ l.map Prod.fst) : l.lookup k = none := by
  induction l with
  | nil => rfl
  | cons p l ih =>
    simp only [List.map_cons, List.mem_cons, not_or] at h
    have hk : (k == p.1) = false := by
      simp only [beq_eq_false_iff_ne, ne_eq]
      exact h.1
    cases p with
    | mk a b => simp only [List.lookup] at *; rw [hk]; exact ih h.2

@[simp]
theorem exceptBind_ok {α β : Type} (a : α) (f : α → Except PyErr β) :
    (Except.ok a >>= f) = f a := rfl

@[simp]
theorem exceptBind_error {α β : Type} (e : PyErr) (f : α → Except PyErr β) :
    ((Except.error e : Except PyErr α) >>= f) = .error e := rfl

@[simp]
theorem exceptPure_eq_ok {α : Type} (a : α) :
    (pure a : Except PyErr α) = .ok a := rfl

/-- A fallible step whose every possible exception is one of the classes the
format handlers catch. -/
def NoEscape {α : Type} (r : Except PyErr α) : Prop :=
  ∀ e, r = .error e → e.isCaughtByFormatHandler = true

theorem noEscape_pure {α : Type} (a : α) : NoEscape (pure a : Except PyErr α) := by
  intro e he
  simp at he

theorem noEscape_bind {α β : Type} {x : Except PyErr α} {f : α → Except PyErr β}
    (hx : NoEscape x) (hf : ∀ a, NoEscape (f a)) : NoEscape (x >>= f) := by
  intro e he
  cases x with
  | error e0 =>
    simp at he
    exact he ▸ hx e0 rfl
  | ok a =>
    simp at he
    exact hf a e he

theorem noEscape_subscript (j : Json) (k : String) : NoEscape (j.subscript k) := by
  intro e he
  cases j <;> try (injection he with h; subst h; rfl)
  case obj fields =>
    have he2 : (match fields.lookup k with
      | some v => Except.ok v
      | none => Except.error (PyErr.keyError k)) = Except.error e := he
    cases hl : fields.lookup k <;> rw [hl] at he2
    case none => injection he2 with h; subst h; rfl
    case some v => exact Except.noConfusion he2

theorem noEscape_indexNat (j : Json) (i : Nat) : NoEscape (j.indexNat i) := by
  intro e he
  cases j <;> try (injection he with h; subst h; rfl)
  case arr xs =>
    have he2 : (match xs.get? i with
      | some v => Except.ok v
      | none => Except.error PyErr.indexError) = Except.error e := he
    cases hl : xs.get? i <;> rw [hl] at he2
    case none => injection he2 with h; subst h; rfl
    case some v => exact Except.noConfusion he2
  case str s =>
    have he2 : (match s.toList.get? i with
      | some c => Except.ok (Json.str (String.mk [c]))
      | none => Except.error PyErr.indexError) = Except.error e := he
    cases hl : s.toList.get? i <;> rw [hl] at he2
    case none => injection he2 with h; subst h; rfl
    case some c => exact Except.noConfusion he2

theorem noEscape_describeJson (j : Json) : NoEscape (describeJson j) := by
  intro e he
  unfold describeJson at he
  by_cases h : j.isHashable = true
  · rw [if_pos h] at he
    exact Except.noConfusion he
  · rw [if_neg h] at he
    injection he with h2
    subst h2
    rfl

theorem noEscape_pyLen (j : Json) : NoEscape j.pyLen := by
  intro e he
  cases j <;> first
    | exact Except.noConfusion he
    | (injection he with h; subst h; rfl)

theorem noEscape_extractCurrent (data : Json) : NoEscape (extractCurrent data) := by
  unfold extractCurrent
  apply noEscape_bind (noEscape_subscript _ _); intro cur
  apply noEscape_bind (noEscape_subscript _ _); intro code
  apply noEscape_bind (noEscape_subscript _ _); intro temp
  apply noEscape_bind (noEscape_subscript _ _); intro feels
  apply noEscape_bind (noEscape_subscript _ _); intro hum
  apply noEscape_bind (noEscape_subscript _ _); intro wspd
  apply noEscape_bind (noEscape_subscript _ _); intro wdir
  apply noEscape_bind (noEscape_subscript _ _); intro prec
  apply noEscape_bind (noEscape_describeJson _); intro cond
  apply noEscape_bind (noEscape_subscript _ _); intro time
  exact noEscape_pure _

theorem noEscape_buildForecastDay (daily : Json) (i : Nat) :
    NoEscape (buildForecastDay daily i) := by
  unfold buildForecastDay
  apply noEscape_bind (noEscape_subscript _ _); intro codes
  apply noEscape_bind (noEscape_indexNat _ _); intro code
  apply noEscape_bind (noEscape_subscript _ _); intro times
  apply noEscape_bind (noEscape_indexNat _ _); intro date
  apply noEscape_bind (noEscape_describeJson _); intro cond
  apply noEscape_bind (noEscape_subscript _ _); intro a1
  apply noEscape_bind (noEscape_indexNat _ _); intro tmax
  apply noEscape_bind (noEscape_subscript _ _); intro a2
  apply noEscape_bind (noEscape_indexNat _ _); intro tmin
  apply noEscape_bind (noEscape_subscript _ _); intro a3
  apply noEscape_bind (noEscape_indexNat _ _); intro psum
  apply noEscape_bind (noEscape_subscript _ _); intro a4
  apply noEscape_bind (noEscape_indexNat _ _); intro pprob
  apply noEscape_bind (noEscape_subscript _ _); intro a5
  apply noEscape_bind (noEscape_indexNat _ _); intro wmax
  exact noEscape_pure _

theorem noEscape_forecastLoop (daily : Json) (i fuel : Nat) :
    NoEscape (forecastLoop daily i fuel) := by
  induction fuel generalizing i with
  | zero =>
    intro e he
    simp [forecastLoop] at he
  | succ fuel ih =>
    unfold forecastLoop
    apply noEscape_bind (noEscape_buildForecastDay _ _); intro d
    apply noEscape_bind (ih _); intro rest
    exact noEscape_pure _

theorem noEscape_extractForecast (data : Json) : NoEscape (extractForecast data) := by
  unfold extractForecast
  apply noEscape_bind (noEscape_subscript _ _); intro daily
  apply noEscape_bind (noEscape_subscript _ _); intro times
  apply noEscape_bind (noEscape_pyLen _); intro n
  exact noEscape_forecastLoop _ _ _

/-- The 200 branch of `get_current`: the extraction either returns or is
remapped to a 502, since every exception it can raise is caught. -/
theorem get_current_200 (lat lon : ℚ) (data : Json) :
    get_current lat lon (.response 200 (some data)) =
      match extractCurrent data with
      | .ok w => .ok w
      | .error e => .httpError 502 (formatErrorDetail e) := by
  cases h : extractCurrent data with
  | ok w => simp [get_current, h]
  | error e =>
    have hc := noEscape_extractCurrent data e h
    simp [get_current, h, hc]

/-- The 200 branch of `get_forecast`, likewise. -/
theorem get_forecast_200 (lat lon : ℚ) (days : Int) (data : Json) :
    get_forecast lat lon days (.response 200 (some data)) =
      match extractForecast data with
      | .ok l => .ok l
      | .error e => .httpError 502 (formatErrorDetail e) := by
  cases h : extractForecast data with
  | ok l => simp [get_forecast, h]
  | error e =>
    have hc := noEscape_extractForecast data e h
    simp [get_forecast, h, hc]

/-- Inversion: when the extraction of current weather succeeds, every field
of the result was actually present in the upstream `current` object and equals
it — nothing was defaulted. -/
theorem extractCurrent_ok_fields (data : Json) (w : CurrentWeather)
    (h : extractCurrent data = .ok w) :
    ∃ cur, data.subscript "current" = .ok cur ∧
      cur.subscript "weather_code" = .ok w.weather_code ∧
      cur.subscript "temperature_2m" = .ok w.temperature_c ∧
      cur.subscript "apparent_temperature" = .ok w.feels_like_c ∧
      cur.subscript "relative_humidity_2m" = .ok w.humidity_pct ∧
      cur.subscript "wind_speed_10m" = .ok w.wind_speed_kmh ∧
      cur.subscript "wind_direction_10m" = .ok w.wind_direction_deg ∧
      cur.subscript "precipitation" = .ok w.precipitation_mm ∧
      describeJson w.weather_code = .ok w.condition ∧
      cur.subscript "time" = .ok w.observation_time := by
  unfold extractCurrent at h
  cases h1 : data.subscript "current" <;> rw [h1] at h <;> simp at h
  rename_i cur
  cases h2 : cur.subscript "weather_code" <;> rw [h2] at h <;> simp at h
  rename_i code
  cases h3 : cur.subscript "temperature_2m" <;> rw [h3] at h <;> simp at h
  rename_i temp
  cases h4 : cur.subscript "apparent_temperature" <;> rw [h4] at h <;> simp at h
  rename_i feels
  cases h5 : cur.subscript "relative_humidity_2m" <;> rw [h5] at h <;> simp at h
  rename_i hum
  cases h6 : cur.subscript "wind_speed_10m" <;> rw [h6] at h <;> simp at h
  rename_i wspd
  cases h7 : cur.subscript "wind_direction_10m" <;> rw [h7] at h <;> simp at h
  rename_i wdir
  cases h8 : cur.subscript "precipitation" <;> rw [h8] at h <;> simp at h
  rename_i prec
  cases h9 : describeJson code <;> rw [h9] at h <;> simp at h
  rename_i cond
  cases h10 : cur.subscript "time" <;> rw [h10] at h <;> simp at h
  rename_i time
  subst h
  exact ⟨cur, rfl, h2, h3, h4, h5, h6, h7, h8, h9, h10⟩

theorem indexNat_arr (xs : List Json) (j : Nat) :
    (Json.arr xs).indexNat j = (match xs.get? j with
      | some v => Except.ok v
      | none => Except.error PyErr.indexError) := rfl

theorem indexNat_arr_lt (xs : List Json) (j : Nat) (h : j < xs.length) :
    (Json.arr xs).indexNat j = .ok (xs.getD j .null) := by
  rw [indexNat_arr, List.get?_eq_getElem?, List.getElem?_eq_getElem h,
    List.getD_eq_getElem?_getD, List.getElem?_eq_getElem h]
  rfl

theorem indexNat_arr_ge (xs : List Json) (j : Nat) (h : xs.length ≤ j) :
    (Json.arr xs).indexNat j = .error .indexError := by
  rw [indexNat_arr, List.get?_eq_getElem?, List.getElem?_eq_none h]

theorem map_getD_range (l : List Json) :
    (List.range l.length).map (fun j => l.getD j .null) = l := by
  apply List.ext_get
  · simp
  · intro i h1 h2
    simp [List.getD_eq_getElem?_getD, List.getElem?_eq_getElem h2]

theorem getD_hashable (cs : List Json) (j : Nat) (hj : j < cs.length)
    (hc : ∀ c ∈ cs, c.isHashable = true) : (cs.getD j .null).isHashable = true := by
  rw [List.getD_eq_getElem?_getD, List.getElem?_eq_getElem hj]
  exact hc _ (List.getElem_mem hj)

theorem mkDaily_time (ts cs maxs mins ps pps ws : List Json) :
    (mkDaily ts cs maxs mins ps pps ws).subscript "time" = .ok (.arr ts) := rfl

theorem mkDaily_code (ts cs maxs mins ps pps ws : List Json) :
    (mkDaily ts cs maxs mins ps pps ws).subscript "weather_code" = .ok (.arr cs) := rfl

theorem mkDaily_tmax (ts cs maxs mins ps pps ws : List Json) :
    (mkDaily ts cs maxs mins ps pps ws).subscript "temperature_2m_max" = .ok (.arr maxs) := rfl

theorem mkDaily_tmin (ts cs maxs mins ps pps ws : List Json) :
    (mkDaily ts cs maxs mins ps pps ws).subscript "temperature_2m_min" = .ok (.arr mins) := rfl

theorem mkDaily_psum (ts cs maxs mins ps pps ws : List Json) :
    (mkDaily ts cs maxs mins ps pps ws).subscript "precipitation_sum" = .ok (.arr ps) := rfl

theorem mkDaily_pprob (ts cs maxs mins ps pps ws : List Json) :
    (mkDaily ts cs maxs mins ps pps ws).subscript "precipitation_probability_max" = .ok (.arr pps) := rfl

theorem mkDaily_wmax (ts cs maxs mins ps pps ws : List Json) :
    (mkDaily ts cs maxs mins ps pps ws).subscript "wind_speed_10m_max" = .ok (.arr ws) := rfl

theorem describeJson_hashable (j : Json) (h : j.isHashable = true) :
    describeJson j = .ok (describeHashable j) := by
  unfold describeJson
  rw [if_pos h]

theorem buildForecastDay_ok (ts cs maxs mins ps pps ws : List Json) (j : Nat)
    (hc : (cs.getD j .null).isHashable = true)
    (h1 : j < ts.length) (h2 : j < cs.length) (h3 : j < maxs.length)
    (h4 : j < mins.length) (h5 : j < ps.length) (h6 : j < pps.length)
    (h7 : j < ws.length) :
    buildForecastDay (mkDaily ts cs maxs mins ps pps ws) j =
      .ok (dayAt ts cs maxs mins ps pps ws j) := by
  unfold buildForecastDay
  rw [mkDaily_code]
  simp only [exceptBind_ok]
  rw [indexNat_arr_lt _ _ h2]
  simp only [exceptBind_ok]
  rw [mkDaily_time]
  simp only [exceptBind_ok]
  rw [indexNat_arr_lt _ _ h1]
  simp only [exceptBind_ok]
  rw [describeJson_hashable _ hc]
  simp only [exceptBind_ok]
  rw [mkDaily_tmax]
  simp only [exceptBind_ok]
  rw [indexNat_arr_lt _ _ h3]
  simp only [exceptBind_ok]
  rw [mkDaily_tmin]
  simp only [exceptBind_ok]
  rw [indexNat_arr_lt _ _ h4]
  simp only [exceptBind_ok]
  rw [mkDaily_psum]
  simp only [exceptBind_ok]
  rw [indexNat_arr_lt _ _ h5]
  simp only [exceptBind_ok]
  rw [mkDaily_pprob]
  simp only [exceptBind_ok]
  rw [indexNat_arr_lt _ _ h6]
  simp only [exceptBind_ok]
  rw [mkDaily_wmax]
  simp only [exceptBind_ok]
  rw [indexNat_arr_lt _ _ h7]
  simp only [exceptBind_ok]
  rfl

theorem forecastLoop_ok_of (daily : Json) (f : Nat → ForecastDay) :
    ∀ (fuel i : Nat),
      (∀ j, j < fuel → buildForecastDay daily (i + j) = .ok (f (i + j))) →
      forecastLoop daily i fuel = .ok ((List.range fuel).map (fun j => f (i + j))) := by
  intro fuel
  induction fuel with
  | zero => intro i h; rfl
  | succ fuel ih =>
    intro i h
    unfold forecastLoop
    rw [show buildForecastDay daily i = .ok (f i) from by simpa using h 0 (Nat.succ_pos _)]
    simp only [exceptBind_ok]
    rw [ih (i + 1) (fun j hj => by
      have hx := h (j + 1) (Nat.succ_lt_succ hj)
      rw [Nat.add_comm j 1, ← Nat.add_assoc] at hx
      exact hx)]
    simp only [exceptBind_ok, exceptPure_eq_ok]
    rw [List.range_succ_eq_map]
    simp only [List.map_cons, List.map_map]
    congr 1
    congr 1
    apply List.map_congr_left
    intro j _
    show f (i + 1 + j) = f (i + (j + 1))
    congr 1
    omega

theorem forecastLoop_error_at (daily : Json) (f : Nat → ForecastDay) (e : PyErr) :
    ∀ (fuel i k : Nat), i ≤ k → k < i + fuel →
      (∀ j, i ≤ j → j < k → buildForecastDay daily j = .ok (f j)) →
      buildForecastDay daily k = .error e →
      forecastLoop daily i fuel = .error e := by
  intro fuel
  induction fuel with
  | zero => intro i k h1 h2 _ _; omega
  | succ fuel ih =>
    intro i k hik hk hok herr
    unfold forecastLoop
    by_cases hi : i = k
    · subst hi
      rw [herr]
      rfl
    · rw [hok i le_rfl (by omega)]
      simp only [exceptBind_ok]
      rw [ih (i + 1) k (by omega) (by omega) (fun j hj1 hj2 => hok j (by omega) hj2) herr]
      rfl

theorem extractForecast_mkDaily (ts cs maxs mins ps pps ws : List Json) (n : Nat)
    (hts : ts.length = n)
    (g2 : n ≤ cs.length) (g3 : n ≤ maxs.length) (g4 : n ≤ mins.length)
    (g5 : n ≤ ps.length) (g6 : n ≤ pps.length) (g7 : n ≤ ws.length)
    (hc : ∀ c ∈ cs, c.isHashable = true) :
    extractForecast (.obj [("daily", mkDaily ts cs maxs mins ps pps ws)]) =
      .ok ((List.range n).map (dayAt ts cs maxs mins ps pps ws)) := by
  unfold extractForecast
  rw [show (Json.obj [("daily", mkDaily ts cs maxs mins ps pps ws)]).subscript "daily" =
    .ok (mkDaily ts cs maxs mins ps pps ws) from rfl]
  simp only [exceptBind_ok]
  rw [mkDaily_time]
  simp only [exceptBind_ok]
  rw [show (Json.arr ts).pyLen = .ok n from by
    rw [show (Json.arr ts).pyLen = .ok ts.length from rfl, hts]]
  simp only [exceptBind_ok]
  have hloop := forecastLoop_ok_of (mkDaily ts cs maxs mins ps pps ws)
      (dayAt ts cs maxs mins ps pps ws) n 0 (fun j hj => by
    simp only [Nat.zero_add]
    exact buildForecastDay_ok ts cs maxs mins ps pps ws j
      (getD_hashable cs j (by omega) hc) (by omega) (by omega) (by omega)
      (by omega) (by omega) (by omega) (by omega))
  simpa using hloop

theorem buildForecastDay_short (ts cs maxs mins ps pps ws : List Json) (k : Nat)
    (hc : ∀ c ∈ cs, c.isHashable = true)
    (hshort : ts.length ≤ k ∨ cs.length ≤ k ∨ maxs.length ≤ k ∨ mins.length ≤ k ∨
      ps.length ≤ k ∨ pps.length ≤ k ∨ ws.length ≤ k) :
    buildForecastDay (mkDaily ts cs maxs mins ps pps ws) k = .error .indexError := by
  unfold buildForecastDay
  rw [mkDaily_code]
  simp only [exceptBind_ok]
  by_cases h2 : cs.length ≤ k
  · rw [indexNat_arr_ge _ _ h2]
    rfl
  push_neg at h2
  rw [indexNat_arr_lt _ _ h2]
  simp only [exceptBind_ok]
  rw [mkDaily_time]
  simp only [exceptBind_ok]
  by_cases h1 : ts.length ≤ k
  · rw [indexNat_arr_ge _ _ h1]
    rfl
  push_neg at h1
  rw [indexNat_arr_lt _ _ h1]
  simp only [exceptBind_ok]
  rw [describeJson_hashable _ (getD_hashable cs k h2 hc)]
  simp only [exceptBind_ok]
  rw [mkDaily_tmax]
  simp only [exceptBind_ok]
  by_cases h3 : maxs.length ≤ k
  · rw [indexNat_arr_ge _ _ h3]
    rfl
  push_neg at h3
  rw [indexNat_arr_lt _ _ h3]
  simp only [exceptBind_ok]
  rw [mkDaily_tmin]
  simp only [exceptBind_ok]
  by_cases h4 : mins.length ≤ k
  · rw [indexNat_arr_ge _ _ h4]
    rfl
  push_neg at h4
  rw [indexNat_arr_lt _ _ h4]
  simp only [exceptBind_ok]
  rw [mkDaily_psum]
  simp only [exceptBind_ok]
  by_cases h5 : ps.length ≤ k
  · rw [indexNat_arr_ge _ _ h5]
    rfl
  push_neg at h5
  rw [indexNat_arr_lt _ _ h5]
  simp only [exceptBind_ok]
  rw [mkDaily_pprob]
  simp only [exceptBind_ok]
  by_cases h6 : pps.length ≤ k
  · rw [indexNat_arr_ge _ _ h6]
    rfl
  push_neg at h6
  rw [indexNat_arr_lt _ _ h6]
  simp only [exceptBind_ok]
  rw [mkDaily_wmax]
  simp only [exceptBind_ok]
  by_cases h7 : ws.length ≤ k
  · rw [indexNat_arr_ge _ _ h7]
    rfl
  push_neg at h7
  rcases hshort with h | h | h | h | h | h | h <;> omega

theorem extractForecast_mkDaily_short (ts cs maxs mins ps pps ws : List Json) (n m : Nat)
    (hts : ts.length = n) (hm : m < n)
    (g2 : m ≤ cs.length) (g3 : m ≤ maxs.length) (g4 : m ≤ mins.length)
    (g5 : m ≤ ps.length) (g6 : m ≤ pps.length) (g7 : m ≤ ws.length)
    (hsome : cs.length = m ∨ maxs.length = m ∨ mins.length = m ∨ ps.length = m ∨
      pps.length = m ∨ ws.length = m)
    (hc : ∀ c ∈ cs, c.isHashable = true) :
    extractForecast (.obj [("daily", mkDaily ts cs maxs mins ps pps ws)]) =
      .error .indexError := by
  unfold extractForecast
  rw [show (Json.obj [("daily", mkDaily ts cs maxs mins ps pps ws)]).subscript "daily" =
    .ok (mkDaily ts cs maxs mins ps pps ws) from rfl]
  simp only [exceptBind_ok]
  rw [mkDaily_time]
  simp only [exceptBind_ok]
  rw [show (Json.arr ts).pyLen = .ok n from by
    rw [show (Json.arr ts).pyLen = .ok ts.length from rfl, hts]]
  simp only [exceptBind_ok]
  apply forecastLoop_error_at _ (dayAt ts cs maxs mins ps pps ws) _ n 0 m (Nat.zero_le _)
    (by omega)
  · intro j hj0 hjm
    exact buildForecastDay_ok ts cs maxs mins ps pps ws j
      (getD_hashable cs j (by omega) hc) (by omega) (by omega) (by omega)
      (by omega) (by omega) (by omega) (by omega)
  · apply buildForecastDay_short ts cs maxs mins ps pps ws m hc
    rcases hsome with h | h | h | h | h | h <;> omega

theorem map_date_range (ts cs maxs mins ps pps ws : List Json) (n : Nat)
    (hts : ts.length = n) :
    ((List.range n).map (dayAt ts cs maxs mins ps pps ws)).map ForecastDay.date = ts := by
  subst hts
  rw [List.map_map]
  exact map_getD_range ts

/-! ## Claims -/

/-- C6: for every integer code in the fixed WMO table (exactly the keys
0, 1, 2, 3, 45, 48, 51, 53, 55, 56, 57, 61, 63, 65, 66, 67, 71, 73, 75, 77,
80, 81, 82, 85, 86, 95, 96, 99), `describe_weather_code` returns exactly the
configured English string (e.g. 0, 2 and 95 as spelt out); for every integer
code outside the table it returns exactly `"Unknown (<code>)"` and never
fails (it is a total function). -/
theorem C6_wmo_code_table :
    (WMO_CODES.map Prod.fst =
      [0, 1, 2, 3, 45, 48, 51, 53, 55, 56, 57, 61, 63, 65, 66, 67, 71, 73, 75,
       77, 80, 81, 82, 85, 86, 95, 96, 99]) ∧
    (∀ p ∈ WMO_CODES, describe_weather_code p.1 = p.2) ∧
    describe_weather_code 0 = "Clear sky" ∧
    describe_weather_code 2 = "Partly cloudy" ∧
    describe_weather_code 95 = "Thunderstorm" ∧
    ∀ c : Int, c ∉ WMO_CODES.map Prod.fst →
      describe_weather_code c = "Unknown (" ++ toString c ++ ")" := by
  refine ⟨by decide, by decide, by decide, by decide, by decide, ?_⟩
  intro c hc
  unfold describe_weather_code
  rw [lookup_eq_none_of_not_mem _ _ hc]

/-- C6 witness: a known code and a code outside the table, evaluated
concretely. -/
theorem C6_wmo_code_table_witness :
    describe_weather_code 1 = "Mainly clear" ∧
    describe_weather_code 4 = "Unknown (4)" :=
  ⟨C6_wmo_code_table.2.1 (1, "Mainly clear") (by decide),
   C6_wmo_code_table.2.2.2.2.2 4 (by decide)⟩

/-- C3: for each of `geocode`, `get_current`, `get_forecast`, a client-side
timeout yields `HTTPException 504` (UpstreamTimeout), a non-timeout transport
failure yields `HTTPException 502` (UpstreamUnreachable), and every non-200
upstream status yields `HTTPException 502` (UpstreamUnavailable); the 504 and
502 classes are distinct and no unhandled fault is raised on these paths. -/
theorem C3_timeout_and_status_taxonomy :
    ∀ (city : String) (lat lon : ℚ) (days : Int) (status : Nat) (body : Option Json),
      geocode city .timeout = .httpError 504 "Weather data source timeout" ∧
      get_current lat lon .timeout = .httpError 504 "Weather data source timeout" ∧
      get_forecast lat lon days .timeout = .httpError 504 "Weather data source timeout" ∧
      geocode city .transportError = .httpError 502 "Weather data source unavailable" ∧
      get_current lat lon .transportError = .httpError 502 "Weather data source unavailable" ∧
      get_forecast lat lon days .transportError = .httpError 502 "Weather data source unavailable" ∧
      (status ≠ 200 →
        geocode city (.response status body) =
          .httpError 502 "Weather data source unavailable" ∧
        get_current lat lon (.response status body) =
          .httpError 502 "Weather data source unavailable" ∧
        get_forecast lat lon days (.response status body) =
          .httpError 502 "Weather data source unavailable") ∧
      (504 : Nat) ≠ 502 := by
  intro city lat lon days status body
  refine ⟨rfl, rfl, rfl, rfl, rfl, rfl, fun h => ⟨?_, ?_, ?_⟩, by decide⟩
  · simp [geocode, h]
  · simp [get_current, h]
  · simp [get_forecast, h]

/-- C3 witness: a simulated 500 status on each operation, evaluated at
concrete inputs. -/
theorem C3_timeout_and_status_taxonomy_witness :
    geocode "Tokyo" (.response 500 (some (.obj []))) =
      .httpError 502 "Weather data source unavailable" :=
  ((C3_timeout_and_status_taxonomy "Tokyo" 0 0 3 500 (some (.obj []))).2.2.2.2.2.2.1
    (by decide)).1

/-- C1: against the configured pricing registry (exactly the two priced
routes of src/main.py, each offering the single `PAYMENT` requirement), a
request to `GET /weather/current` or `GET /weather/forecast` without a valid
payment proof is answered 402 with a body enumerating every configured
PaymentRequirement of that route, and the route handler (hence the Upstream
Weather Client it would call) is never invoked; a request to `GET /health`
is forwarded to the health handler, whose status is 200, never 402,
whatever the proof state. -/
theorem C1_payment_gate_challenge :
    ∀ (evmAddress networkId : String) (handler : Request → Response) (proof : Bool),
      gateRequest (routes evmAddress networkId) handler
          ⟨"GET", "/weather/current", false⟩ =
        (⟨402, .challenge [PAYMENT evmAddress networkId]⟩, false) ∧
      gateRequest (routes evmAddress networkId) handler
          ⟨"GET", "/weather/forecast", false⟩ =
        (⟨402, .challenge [PAYMENT evmAddress networkId]⟩, false) ∧
      (routes evmAddress networkId).lookup "GET /weather/current" =
        some ⟨[PAYMENT evmAddress networkId], "application/json",
          ((routes evmAddress networkId).get ⟨0, by simp [routes]⟩).2.description,
          currentBazaar⟩ ∧
      gateRequest (routes evmAddress networkId)
          (fun _ => health_check networkId) ⟨"GET", "/health", proof⟩ =
        (health_check networkId, true) ∧
      (health_check networkId).status = 200 ∧
      (health_check networkId).status ≠ 402 := by
  intro evmAddress networkId handler proof
  exact ⟨rfl, rfl, rfl, rfl, rfl, by simp [health_check]⟩

/-- C2 counterexample: the claim fails on the code.  A 200 geocoding response
whose first match lacks the `name` field makes `geocode` raise a raw
`KeyError` (the field accesses on `hit` are outside any `try`), and a 200
response whose body is not JSON makes `get_current` and `get_forecast` raise
a raw JSON decode error (`resp.json()` is outside the `try`). -/
theorem C2_raw_fault_counterexample :
    geocode "Paris" (.response 200 (some (.obj [("results", .arr
        [.obj [("latitude", .num 1), ("longitude", .num 2)]])]))) =
      .uncaught (.keyError "name") ∧
    get_current 0 0 (.response 200 none) = .uncaught .jsonDecodeError ∧
    get_forecast 0 0 3 (.response 200 none) = .uncaught .jsonDecodeError :=
  ⟨rfl, rfl, rfl⟩

/-- C2 amended: `get_current` and `get_forecast` let no raw fault escape on
any upstream outcome whose 200 body parses as JSON, and all three operations
map timeouts, transport failures and non-200 statuses to taxonomy errors
without any raw fault; but a 200 body that is not JSON escapes as a raw
decode fault in all three, and `geocode` can let raw structural faults
(e.g. a missing `name` field) escape even on a JSON 200 body. -/
theorem C2_amended_fault_containment :
    ∀ (city : String) (lat lon : ℚ) (days : Int) (data : Json)
      (status : Nat) (body : Option Json) (e : PyErr),
      get_current lat lon (.response 200 (some data)) ≠ .uncaught e ∧
      get_forecast lat lon days (.response 200 (some data)) ≠ .uncaught e ∧
      geocode city .timeout ≠ .uncaught e ∧
      geocode city .transportError ≠ .uncaught e ∧
      get_current lat lon .timeout ≠ .uncaught e ∧
      get_current lat lon .transportError ≠ .uncaught e ∧
      get_forecast lat lon days .timeout ≠ .uncaught e ∧
      get_forecast lat lon days .transportError ≠ .uncaught e ∧
      (status ≠ 200 →
        geocode city (.response status body) ≠ .uncaught e ∧
        get_current lat lon (.response status body) ≠ .uncaught e ∧
        get_forecast lat lon days (.response status body) ≠ .uncaught e) := by
  intro city lat lon days data status body e
  refine ⟨?_, ?_, by simp [geocode], by simp [geocode], by simp [get_current],
    by simp [get_current], by simp [get_forecast], by simp [get_forecast],
    fun h => ⟨by simp [geocode, h], by simp [get_current, h], by simp [get_forecast, h]⟩⟩
  · rw [get_current_200]
    cases extractCurrent data <;> simp
  · rw [get_forecast_200]
    cases extractForecast data <;> simp

/-- C2 amended witness: the containment applied at a concrete non-200
status. -/
theorem C2_amended_fault_containment_witness :
    geocode "Tokyo" (.response 500 (some (.obj []))) ≠
      .uncaught PyErr.jsonDecodeError :=
  ((C2_amended_fault_containment "Tokyo" 0 0 3 (.obj []) 500 (some (.obj []))
    PyErr.jsonDecodeError).2.2.2.2.2.2.2.2 (by decide)).1

/-- C8: `_resolve_location` — when both coordinates are supplied it returns
the city name when one was given (Python treats an empty string as missing),
otherwise the `"lat,lon"` string, with empty country and the coordinates,
and its result is independent of the geocoding function (no geocoding call);
when a coordinate is missing and a (non-empty) city name is supplied it
returns exactly the outcome of `geocode(city)`; when neither is supplied it
fails with `HTTPException 400`. -/
theorem C8_resolve_location :
    ∀ (g g2 : String → Outcome GeoResult) (city : Option String) (c : String)
      (la lo : ℚ) (lat lon : Option ℚ),
      (c.isEmpty = false →
        resolveLocation g (some c) (some la) (some lo) =
          .ok (.str c, .str "", .num la, .num lo)) ∧
      (resolveLocation g none (some la) (some lo) =
        .ok (.str (qRender la ++ "," ++ qRender lo), .str "", .num la, .num lo)) ∧
      (resolveLocation g city (some la) (some lo) =
        resolveLocation g2 city (some la) (some lo)) ∧
      ((lat = none ∨ lon = none) → c.isEmpty = false →
        resolveLocation g (some c) lat lon =
          (match g c with
           | .ok r => .ok (r.name, r.country, r.latitude, r.longitude)
           | .httpError s d => .httpError s d
           | .uncaught e => .uncaught e)) ∧
      ((lat = none ∨ lon = none) →
        resolveLocation g none lat lon =
          .httpError 400
            "Provide \x27city\x27 or both \x27lat\x27 and \x27lon\x27 parameters") := by
  intro g g2 city c la lo lat lon
  refine ⟨fun hc => by simp [resolveLocation, hc], rfl, rfl, fun h hc => ?_, fun h => ?_⟩
  · rcases h with h | h <;> subst h
    · simp [resolveLocation, hc]
    · cases lat <;> simp [resolveLocation, hc]
  · rcases h with h | h <;> subst h
    · rfl
    · cases lat <;> rfl

/-- C8 witness: concrete coordinate short-circuit and concrete 400. -/
theorem C8_resolve_location_witness :
    resolveLocation (fun _ => .httpError 404 "x") (some "Tokyo") (some 1) (some 2) =
      .ok (.str "Tokyo", .str "", .num 1, .num 2) ∧
    resolveLocation (fun _ => .httpError 404 "x") none none none =
      .httpError 400
        "Provide \x27city\x27 or both \x27lat\x27 and \x27lon\x27 parameters" :=
  ⟨(C8_resolve_location (fun _ => .httpError 404 "x") (fun _ => .httpError 404 "x")
      none "Tokyo" 1 2 none none).1 (by decide),
   ((C8_resolve_location (fun _ => .httpError 404 "x") (fun _ => .httpError 404 "x")
      none "Tokyo" 1 2 none none).2.2.2.2 (Or.inl rfl))⟩

/-- C10: on a 200 geocoding response with a non-empty results list whose
first entry is an object, a missing `country` field is silently defaulted to
the empty string while `name`, `latitude` and `longitude` are all present in
the returned location; and unlike `country`, a missing `name`, `latitude` or
`longitude` field makes the call fail (with a raw `KeyError`) rather than
being defaulted. -/
theorem C10_country_defaulted :
    ∀ (city : String) (hitkvs : List (String × Json)) (rest : List Json)
      (nm la lo : Json),
      (("country" ∉ hitkvs.map Prod.fst) →
        hitkvs.lookup "name" = some nm →
        hitkvs.lookup "latitude" = some la →
        hitkvs.lookup "longitude" = some lo →
        geocode city (.response 200 (some (.obj
            [("results", .arr (.obj hitkvs :: rest))]))) =
          .ok ⟨nm, .str "", la, lo⟩) ∧
      (("name" ∉ hitkvs.map Prod.fst) →
        geocode city (.response 200 (some (.obj
            [("results", .arr (.obj hitkvs :: rest))]))) =
          .uncaught (.keyError "name")) ∧
      (hitkvs.lookup "name" = some nm →
        ("latitude" ∉ hitkvs.map Prod.fst) →
        geocode city (.response 200 (some (.obj
            [("results", .arr (.obj hitkvs :: rest))]))) =
          .uncaught (.keyError "latitude")) ∧
      (hitkvs.lookup "name" = some nm →
        hitkvs.lookup "latitude" = some la →
        ("longitude" ∉ hitkvs.map Prod.fst) →
        geocode city (.response 200 (some (.obj
            [("results", .arr (.obj hitkvs :: rest))]))) =
          .uncaught (.keyError "longitude")) := by
  intro city hitkvs rest nm la lo
  refine ⟨fun hc h1 h2 h3 => ?_, fun h1 => ?_, fun h1 h2 => ?_, fun h1 h2 h3 => ?_⟩
  · simp [geocode, Json.getOrNone, Json.isFalsy, Json.indexNat, Json.subscript,
      Json.getOrDefault, h1, h2, h3, lookup_eq_none_of_not_mem _ _ hc]
  · simp [geocode, Json.getOrNone, Json.isFalsy, Json.indexNat, Json.subscript,
      lookup_eq_none_of_not_mem _ _ h1]
  · simp [geocode, Json.getOrNone, Json.isFalsy, Json.indexNat, Json.subscript,
      Json.getOrDefault, h1, lookup_eq_none_of_not_mem _ _ h2]
  · simp [geocode, Json.getOrNone, Json.isFalsy, Json.indexNat, Json.subscript,
      Json.getOrDefault, h1, h2, lookup_eq_none_of_not_mem _ _ h3]

/-- C10 witness: a concrete first entry without `country`, and one without
`name`. -/
theorem C10_country_defaulted_witness :
    geocode "Oz" (.response 200 (some (.obj [("results", .arr
        [.obj [("name", .str "Oz"), ("latitude", .num 1), ("longitude", .num 2)]])]))) =
      .ok ⟨.str "Oz", .str "", .num 1, .num 2⟩ ∧
    geocode "Oz" (.response 200 (some (.obj [("results", .arr
        [.obj [("latitude", .num 1), ("longitude", .num 2)]])]))) =
      .uncaught (.keyError "name") :=
  ⟨(C10_country_defaulted "Oz"
      [("name", .str "Oz"), ("latitude", .num 1), ("longitude", .num 2)] []
      (.str "Oz") (.num 1) (.num 2)).1 (by decide) rfl rfl rfl,
   (C10_country_defaulted "Oz"
      [("latitude", .num 1), ("longitude", .num 2)] []
      (.str "Oz") (.num 1) (.num 2)).2.1 (by decide)⟩

/-- C5: on a 200 geocoding response whose body is a JSON object, `geocode`
fails with `HTTPException 404` ("City not found") when the `results` key is
entirely absent, when it is null, or when it is the empty list; and it
returns a location only when `results` is a non-empty list. -/
theorem C5_geocode_zero_matches :
    ∀ (city : String) (kvs : List (String × Json)),
      ("results" ∉ kvs.map Prod.fst →
        geocode city (.response 200 (some (.obj kvs))) =
          .httpError 404 ("City not found: " ++ city)) ∧
      (kvs.lookup "results" = some .null →
        geocode city (.response 200 (some (.obj kvs))) =
          .httpError 404 ("City not found: " ++ city)) ∧
      (kvs.lookup "results" = some (.arr []) →
        geocode city (.response 200 (some (.obj kvs))) =
          .httpError 404 ("City not found: " ++ city)) ∧
      (∀ g, geocode city (.response 200 (some (.obj kvs))) = .ok g →
        ∃ xs, kvs.lookup "results" = some (.arr xs) ∧ xs ≠ []) := by
  intro city kvs
  refine ⟨fun h => ?_, fun h => ?_, fun h => ?_, fun g hok => ?_⟩
  · simp [geocode, Json.getOrNone, Json.isFalsy, lookup_eq_none_of_not_mem _ _ h]
  · simp [geocode, Json.getOrNone, Json.isFalsy, h]
  · simp [geocode, Json.getOrNone, Json.isFalsy, h]
  · cases hr : kvs.lookup "results" with
    | none => simp [geocode, Json.getOrNone, Json.isFalsy, hr] at hok
    | some v =>
      cases v with
      | arr xs =>
        cases xs with
        | nil => simp [geocode, Json.getOrNone, Json.isFalsy, hr] at hok
        | cons x xs => exact ⟨x :: xs, rfl, by simp⟩
      | null => simp [geocode, Json.getOrNone, Json.isFalsy, hr] at hok
      | bool b =>
        cases b <;>
          simp [geocode, Json.getOrNone, Json.isFalsy, Json.indexNat, hr] at hok
      | num q =>
        by_cases hq : q == 0
        · simp [geocode, Json.getOrNone, Json.isFalsy, hr, hq] at hok
        · simp [geocode, Json.getOrNone, Json.isFalsy, Json.indexNat, hr, hq] at hok
      | str s =>
        by_cases hs : s.isEmpty
        · simp [geocode, Json.getOrNone, Json.isFalsy, hr, hs] at hok
        · simp [geocode, Json.getOrNone, Json.isFalsy, Json.indexNat,
            Json.subscript, hr, hs] at hok
          cases hget : s.data[0]? <;> rw [hget] at hok <;> simp at hok
      | obj fs =>
        cases fs with
        | nil => simp [geocode, Json.getOrNone, Json.isFalsy, hr] at hok
        | cons p fs =>
          simp [geocode, Json.getOrNone, Json.isFalsy, Json.indexNat, hr] at hok

/-- C5 witness: a body with no results key, and one with an empty list. -/
theorem C5_geocode_zero_matches_witness :
    geocode "Nowhere" (.response 200 (some (.obj []))) =
      .httpError 404 "City not found: Nowhere" ∧
    geocode "Nowhere" (.response 200 (some (.obj [("results", .arr [])]))) =
      .httpError 404 "City not found: Nowhere" :=
  ⟨(C5_geocode_zero_matches "Nowhere" []).1 (by decide),
   (C5_geocode_zero_matches "Nowhere" [("results", .arr [])]).2.2.1 rfl⟩

/-- C4: on a 200 response whose JSON body lacks the expected structure, both
operations fail with `HTTPException 502` ("Unexpected weather data format"):
a missing `current`/`daily` key gives exactly that 502, and any failing step
of the extraction is remapped to it; conversely a successful `get_current`
result has every field present in and equal to the upstream `current` object
(never silently defaulted), and a successful `get_forecast` result is the
full extraction. -/
theorem C4_malformed_maps_to_502 :
    ∀ (lat lon : ℚ) (days : Int) (kvs : List (String × Json)) (data : Json),
      ("current" ∉ kvs.map Prod.fst →
        get_current lat lon (.response 200 (some (.obj kvs))) =
          .httpError 502 (formatErrorDetail (.keyError "current"))) ∧
      ("daily" ∉ kvs.map Prod.fst →
        get_forecast lat lon days (.response 200 (some (.obj kvs))) =
          .httpError 502 (formatErrorDetail (.keyError "daily"))) ∧
      (∀ e, extractCurrent data = .error e →
        get_current lat lon (.response 200 (some data)) =
          .httpError 502 (formatErrorDetail e)) ∧
      (∀ e, extractForecast data = .error e →
        get_forecast lat lon days (.response 200 (some data)) =
          .httpError 502 (formatErrorDetail e)) ∧
      (∀ w, get_current lat lon (.response 200 (some data)) = .ok w →
        ∃ cur, data.subscript "current" = .ok cur ∧
          cur.subscript "weather_code" = .ok w.weather_code ∧
          cur.subscript "temperature_2m" = .ok w.temperature_c ∧
          cur.subscript "apparent_temperature" = .ok w.feels_like_c ∧
          cur.subscript "relative_humidity_2m" = .ok w.humidity_pct ∧
          cur.subscript "wind_speed_10m" = .ok w.wind_speed_kmh ∧
          cur.subscript "wind_direction_10m" = .ok w.wind_direction_deg ∧
          cur.subscript "precipitation" = .ok w.precipitation_mm ∧
          describeJson w.weather_code = .ok w.condition ∧
          cur.subscript "time" = .ok w.observation_time) ∧
      (∀ l, get_forecast lat lon days (.response 200 (some data)) = .ok l →
        extractForecast data = .ok l) := by
  intro lat lon days kvs data
  refine ⟨fun h => ?_, fun h => ?_, fun e he => ?_, fun e he => ?_,
    fun w hw => ?_, fun l hl => ?_⟩
  · have hx : (Json.obj kvs).subscript "current" = .error (.keyError "current") := by
      simp [Json.subscript, lookup_eq_none_of_not_mem _ _ h]
    have hext : extractCurrent (.obj kvs) = .error (.keyError "current") := by
      unfold extractCurrent
      rw [hx]
      rfl
    rw [get_current_200, hext]
  · have hx : (Json.obj kvs).subscript "daily" = .error (.keyError "daily") := by
      simp [Json.subscript, lookup_eq_none_of_not_mem _ _ h]
    have hext : extractForecast (.obj kvs) = .error (.keyError "daily") := by
      unfold extractForecast
      rw [hx]
      rfl
    rw [get_forecast_200, hext]
  · rw [get_current_200, he]
  · rw [get_forecast_200, he]
  · rw [get_current_200] at hw
    cases hext : extractCurrent data <;> rw [hext] at hw <;> simp at hw
    exact hw ▸ extractCurrent_ok_fields data _ hext
  · rw [get_forecast_200] at hl
    cases hext : extractForecast data <;> rw [hext] at hl <;> simp at hl
    rw [hl]

/-- C4 witness: a 200 body with no `current`/`daily` key, evaluated
concretely. -/
theorem C4_malformed_maps_to_502_witness :
    get_current 0 0 (.response 200 (some (.obj [("error", .bool true)]))) =
      .httpError 502 (formatErrorDetail (.keyError "current")) ∧
    get_forecast 0 0 3 (.response 200 (some (.obj [("error", .bool true)]))) =
      .httpError 502 (formatErrorDetail (.keyError "daily")) :=
  ⟨(C4_malformed_maps_to_502 0 0 3 [("error", .bool true)] .null).1 (by decide),
   (C4_malformed_maps_to_502 0 0 3 [("error", .bool true)] .null).2.1 (by decide)⟩

/-- C7: when the upstream 200 body supplies the seven parallel arrays all of
length `n` (with hashable weather codes, as JSON scalars are), `get_forecast`
returns exactly `n` entries — entry `j` built from position `j` of every
array, its condition derived from that day's own weather code — in the order
of the upstream time array (the dates of the result are exactly the time
array); a body without the `daily` key fails with the 502 format error; a
successful call always returns the full extraction (never a partial result);
and a weather-code array shorter than the time array fails wholesale with
the 502 format error. -/
theorem C7_forecast_parallel_arrays :
    ∀ (lat lon : ℚ) (days : Int) (n : Nat) (ts cs maxs mins ps pps ws : List Json)
      (kvs : List (String × Json)) (data : Json),
      (ts.length = n → cs.length = n → maxs.length = n → mins.length = n →
       ps.length = n → pps.length = n → ws.length = n →
       (∀ c ∈ cs, c.isHashable = true) →
        get_forecast lat lon days (.response 200 (some (.obj
            [("daily", mkDaily ts cs maxs mins ps pps ws)]))) =
          .ok ((List.range n).map (dayAt ts cs maxs mins ps pps ws)) ∧
        ((List.range n).map (dayAt ts cs maxs mins ps pps ws)).length = n ∧
        ((List.range n).map (dayAt ts cs maxs mins ps pps ws)).map
          ForecastDay.date = ts ∧
        (∀ j, (dayAt ts cs maxs mins ps pps ws j).condition =
          describeHashable (cs.getD j .null))) ∧
      ("daily" ∉ kvs.map Prod.fst →
        get_forecast lat lon days (.response 200 (some (.obj kvs))) =
          .httpError 502 (formatErrorDetail (.keyError "daily"))) ∧
      (∀ l, get_forecast lat lon days (.response 200 (some data)) = .ok l →
        extractForecast data = .ok l) ∧
      (ts.length = n → cs.length < n → n ≤ maxs.length → n ≤ mins.length →
       n ≤ ps.length → n ≤ pps.length → n ≤ ws.length →
       (∀ c ∈ cs, c.isHashable = true) →
        get_forecast lat lon days (.response 200 (some (.obj
            [("daily", mkDaily ts cs maxs mins ps pps ws)]))) =
          .httpError 502 (formatErrorDetail .indexError)) := by
  intro lat lon days n ts cs maxs mins ps pps ws kvs data
  refine ⟨fun h1 h2 h3 h4 h5 h6 h7 hc => ?_, fun h => ?_, fun l hl => ?_,
    fun h1 h2 h3 h4 h5 h6 h7 hc => ?_⟩
  · have hext := extractForecast_mkDaily ts cs maxs mins ps pps ws n h1
      (by omega) (by omega) (by omega) (by omega) (by omega) (by omega) hc
    exact ⟨by rw [get_forecast_200, hext], by simp,
      map_date_range _ _ _ _ _ _ _ _ h1, fun j => rfl⟩
  · have hx : (Json.obj kvs).subscript "daily" = .error (.keyError "daily") := by
      simp [Json.subscript, lookup_eq_none_of_not_mem _ _ h]
    have hext : extractForecast (.obj kvs) = .error (.keyError "daily") := by
      unfold extractForecast
      rw [hx]
      rfl
    rw [get_forecast_200, hext]
  · rw [get_forecast_200] at hl
    cases hext : extractForecast data <;> rw [hext] at hl <;> simp at hl
    rw [hl]
  · have hext := extractForecast_mkDaily_short ts cs maxs mins ps pps ws n cs.length
      h1 h2 le_rfl (by omega) (by omega) (by omega) (by omega) (by omega)
      (Or.inl rfl) hc
    rw [get_forecast_200, hext]

/-- C7 witness: three 2-day parallel arrays, evaluated concretely. -/
theorem C7_forecast_parallel_arrays_witness :
    get_forecast 0 0 2 (.response 200 (some (.obj [("daily",
        mkDaily [.str "d1", .str "d2"] [.num 61, .num 0] [.num 15, .num 18]
          [.num 8, .num 9] [.num 12, .num 0] [.num 85, .num 5]
          [.num 22, .num 10])]))) =
      .ok ((List.range 2).map (dayAt [.str "d1", .str "d2"] [.num 61, .num 0]
        [.num 15, .num 18] [.num 8, .num 9] [.num 12, .num 0] [.num 85, .num 5]
        [.num 22, .num 10])) :=
  ((C7_forecast_parallel_arrays 0 0 2 2 [.str "d1", .str "d2"] [.num 61, .num 0]
      [.num 15, .num 18] [.num 8, .num 9] [.num 12, .num 0] [.num 85, .num 5]
      [.num 22, .num 10] [] .null).1 rfl rfl rfl rfl rfl rfl rfl (by decide)).1

/-- C9: the number of returned entries follows the upstream time array, not
the `days` argument — the handling of the response is literally independent
of `days` (it only parameterises the outbound request); with a time array of
length `n` and every other array of length at least `n`, the call returns
exactly `n` entries (extra elements of longer arrays ignored); and when some
other array is shorter than the time array, the whole call fails with the
502 format error. -/
theorem C9_output_length_follows_time_array :
    ∀ (lat lon : ℚ) (d1 d2 : Int) (u : Upstream) (n m : Nat)
      (ts cs maxs mins ps pps ws : List Json),
      (get_forecast lat lon d1 u = get_forecast lat lon d2 u) ∧
      (ts.length = n → n ≤ cs.length → n ≤ maxs.length → n ≤ mins.length →
       n ≤ ps.length → n ≤ pps.length → n ≤ ws.length →
       (∀ c ∈ cs, c.isHashable = true) →
        get_forecast lat lon d1 (.response 200 (some (.obj
            [("daily", mkDaily ts cs maxs mins ps pps ws)]))) =
          .ok ((List.range n).map (dayAt ts cs maxs mins ps pps ws)) ∧
        ((List.range n).map (dayAt ts cs maxs mins ps pps ws)).length = n) ∧
      (ts.length = n → m < n →
       m ≤ cs.length → m ≤ maxs.length → m ≤ mins.length → m ≤ ps.length →
       m ≤ pps.length → m ≤ ws.length →
       (cs.length = m ∨ maxs.length = m ∨ mins.length = m ∨ ps.length = m ∨
        pps.length = m ∨ ws.length = m) →
       (∀ c ∈ cs, c.isHashable = true) →
        get_forecast lat lon d1 (.response 200 (some (.obj
            [("daily", mkDaily ts cs maxs mins ps pps ws)]))) =
          .httpError 502 (formatErrorDetail .indexError)) := by
  intro lat lon d1 d2 u n m ts cs maxs mins ps pps ws
  refine ⟨rfl, fun h1 g2 g3 g4 g5 g6 g7 hc => ?_,
    fun h1 hm g2 g3 g4 g5 g6 g7 hsome hc => ?_⟩
  · have hext := extractForecast_mkDaily ts cs maxs mins ps pps ws n h1
      g2 g3 g4 g5 g6 g7 hc
    exact ⟨by rw [get_forecast_200, hext], by simp⟩
  · have hext := extractForecast_mkDaily_short ts cs maxs mins ps pps ws n m h1 hm
      g2 g3 g4 g5 g6 g7 hsome hc
    rw [get_forecast_200, hext]

/-- C9 witness: a 2-day time array with a 1-element weather-code array,
evaluated concretely: wholesale 502, no partial result. -/
theorem C9_output_length_follows_time_array_witness :
    get_forecast 0 0 7 (.response 200 (some (.obj [("daily",
        mkDaily [.str "d1", .str "d2"] [.num 61] [.num 15, .num 18]
          [.num 8, .num 9] [.num 12, .num 0] [.num 85, .num 5]
          [.num 22, .num 10])]))) =
      .httpError 502 (formatErrorDetail .indexError) :=
  (C9_output_length_follows_time_array 0 0 7 7 .timeout 2 1 [.str "d1", .str "d2"]
      [.num 61] [.num 15, .num 18] [.num 8, .num 9] [.num 12, .num 0]
      [.num 85, .num 5] [.num 22, .num 10]).2.2 rfl (by decide) (by decide)
    (by decide) (by decide) (by decide) (by decide) (by decide) (Or.inl rfl)
    (by decide)

end WeatherApi
